import Mathlib

/-!
Verification development for the EarthQuake utility (src/earthquake.py).

The program is shallowly embedded: Python dictionaries, lists, numbers and
strings become a `JVal` JSON-like value type; Python's dynamic failures
(AttributeError, IndexError, TypeError, KeyError) become an explicit
`Except PyErr` result; `requests` transport outcomes and the boundary-file
read become explicit parameters so the pure data pipeline can be reasoned
about.  Numeric values are rationals (`Rat`): the program only compares,
negates, multiplies and subtracts, so rationals model the Python arithmetic
it performs exactly.  Presentation-only artefacts (hover-text strings, the
local-time `strftime` rendering, colours) are not modelled; the raw values
they are built from are.
-/

/-- A Python/JSON value.  `null` is Python `None`; `obj` is a dict as an
association list (Python dict keys are unique; lookup takes the first hit). -/
inductive JVal where
  | null
  | bool (b : Bool)
  | num (q : Rat)
  | str (s : String)
  | arr (elems : List JVal)
  | obj (fields : List (String × JVal))

/-- The Python runtime errors the embedded code can raise. -/
inductive PyErr where
  | attributeError
  | indexError
  | typeError
  | keyError
  deriving DecidableEq, Repr

namespace JVal

/-- Python truthiness: `None`, `False`, `0`, empty string/list/dict are falsy. -/
def isTruthy : JVal → Bool
  | .null => false
  | .bool b => b
  | .num q => q != 0
  | .str s => s != ""
  | .arr xs => !xs.isEmpty
  | .obj fs => !fs.isEmpty

/-- `isinstance(v, (int, float))`.  Python `bool` is a subclass of `int`,
so booleans count as numeric. -/
def isNum : JVal → Bool
  | .num _ => true
  | .bool _ => true
  | _ => false

/-- `v is None`. -/
def isNull : JVal → Bool
  | .null => true
  | _ => false

/-- `v == s` against a string constant (Python `==` on a string literal). -/
def eqStr (v : JVal) (s : String) : Bool :=
  match v with
  | .str t => t == s
  | _ => false

/-- Numeric value of a Python number (booleans are 0/1); 0 on non-numbers
(only ever used under an `isNum` guard). -/
def toRat : JVal → Rat
  | .num q => q
  | .bool b => if b then 1 else 0
  | _ => 0

end JVal

/-- Dict field lookup used by the embedding of `d.get(k)` / `d[k]`. -/
def dictLookup : List (String × JVal) → String → Option JVal
  | [], _ => none
  | (k, v) :: rest, key => if k = key then some v else dictLookup rest key

/-- `v.get(key)`: returns `None` (`JVal.null`) when the key is absent;
raises `AttributeError` when `v` is not a dict. -/
def pyGetAttr (v : JVal) (key : String) : Except PyErr JVal :=
  match v with
  | .obj fs => .ok ((dictLookup fs key).getD .null)
  | _ => .error .attributeError

/-- `v.get(key, default)`. -/
def pyGetDefault (v : JVal) (key : String) (dflt : JVal) : Except PyErr JVal :=
  match v with
  | .obj fs => .ok ((dictLookup fs key).getD dflt)
  | _ => .error .attributeError

/-- `v[i]` for a non-negative integer `i`: list or string indexing, with
`IndexError` past the end; `KeyError` on a dict (integer key not present);
`TypeError` on non-subscriptable values. -/
def pyIndex (v : JVal) (i : Nat) : Except PyErr JVal :=
  match v with
  | .arr xs =>
    match xs.get? i with
    | some x => .ok x
    | none => .error .indexError
  | .str s =>
    match s.toList.get? i with
    | some c => .ok (.str (String.singleton c))
    | none => .error .indexError
  | .obj _ => .error .keyError
  | _ => .error .typeError

/-- `for x in v`: lists yield elements, strings yield one-character strings,
dicts yield their keys; everything else raises `TypeError`. -/
def pyIter (v : JVal) : Except PyErr (List JVal) :=
  match v with
  | .arr xs => .ok xs
  | .str s => .ok (s.toList.map fun c => .str (String.singleton c))
  | .obj fs => .ok (fs.map fun p => .str p.1)
  | _ => .error .typeError

/-- `len(v)`: `TypeError` on unsized values. -/
def pyLen (v : JVal) : Except PyErr Nat :=
  match v with
  | .arr xs => .ok xs.length
  | .str s => .ok s.length
  | .obj fs => .ok fs.length
  | _ => .error .typeError

/-- `v * x` for a Python float `x`: only numbers (and booleans) multiply
with a float; strings/lists would only replicate with an integer. -/
def pyMulFloat (v : JVal) (x : Rat) : Except PyErr Rat :=
  if v.isNum then .ok (v.toRat * x) else .error .typeError

/-! ## Configuration constants (source lines 7-38) -/

def DAYS_AGO : Rat := 1000
def MIN_MAGNITUDE : Rat := 5/2
def MIN_LAT : Rat := 20
def MAX_LAT : Rat := 50
def MIN_LON : Rat := 120
def MAX_LON : Rat := 150
def MIN_DEPTH_KM : Rat := 30
def EARTHQUAKE_MARKER_SIZE_BASE : Rat := 3
def MARKER_MAGNITUDE_MULTIPLIER : Rat := 1
def CITY_MARKER_SIZE : Rat := 3
def GEOJSON_FILE : String := "gadm41_JPN_0.json"

/-- Static reference-city table: (latitude, longitude, label). -/
def MAJOR_JAPANESE_CITIES : List (Rat × Rat × String) :=
  [ (35.6895, 139.6917, "東京"),
    (34.6937, 135.5022, "大阪"),
    (35.1815, 136.9066, "名古屋"),
    (43.0621, 141.3544, "札幌"),
    (33.5903, 130.4017, "福岡"),
    (38.2682, 140.8694, "仙台"),
    (34.3963, 132.4596, "広島"),
    (34.6851, 133.9187, "岡山"),
    (38.0000, 140.0000, "福島"),
    (37.9023, 139.0232, "新潟"),
    (35.0116, 135.7681, "京都"),
    (34.7042, 137.3820, "浜松"),
    (32.7875, 129.8738, "長崎"),
    (31.5969, 130.5571, "鹿児島"),
    (26.2124, 127.6809, "那覇") ]

/-! ## Query window (source lines 76-78)

`end_time = datetime.now(); start_time = end_time - timedelta(days=days_ago)`.
Timestamps are modelled as rational seconds since an arbitrary epoch. -/

/-- `timedelta(days=d)` in seconds. -/
def timedelta_days (d : Rat) : Rat := d * 86400

/-- `end_time = datetime.now()` for a run happening at `now`. -/
def query_end_time (now : Rat) : Rat := now

/-- `start_time = end_time - timedelta(days=days_ago)`. -/
def query_start_time (now days_ago : Rat) : Rat :=
  query_end_time now - timedelta_days days_ago

/-! ## Catalog parse (source lines 106-130) -/

/-- One accepted catalog record.  Latitude/longitude/depth are stored only
after the `isinstance` numeric check; `magnitude`, `timeRaw` and `place` are
stored as the raw values the source keeps (`mag` is only checked to be
non-`None`, not numeric). -/
structure SeismicEvent where
  latitude : Rat
  longitude : Rat
  depth : Rat
  magnitude : JVal
  timeRaw : JVal
  place : JVal

/-- The accept test and record construction of source lines 121-129, on
the six values read from the feature.  The time conversion of line 121
(`time_ms / 1000` on a truthy non-number) raises TypeError; the record is
accepted only when latitude, longitude and depth are numeric, depth and
magnitude are not `None`, and the depth meets the configured floor. -/
def acceptRecord (lon lat depth mag timeRaw place : JVal) :
    Except PyErr (Option SeismicEvent) :=
  if timeRaw.isTruthy && !timeRaw.isNum then
    .error .typeError
  else if (lat.isNum && lon.isNum && depth.isNum)
      && !depth.isNull && !mag.isNull then
    if depth.toRat ≥ MIN_DEPTH_KM then
      .ok (some { latitude := lat.toRat, longitude := lon.toRat,
                  depth := depth.toRat, magnitude := mag,
                  timeRaw := timeRaw, place := place })
    else
      .ok none
  else
    .ok none

/-- Source lines 113-129 once the truthy coordinates value is in hand:
`geometry['coordinates'][0..2]` (IndexError/TypeError on unsuitable
values), then `properties.get('mag'/'time'/'place')` (AttributeError on a
non-dict truthy properties), then the accept test. -/
def parseFeatureCoords (properties coordsVal : JVal) :
    Except PyErr (Option SeismicEvent) :=
  match pyIndex coordsVal 0, pyIndex coordsVal 1, pyIndex coordsVal 2 with
  | .error e, _, _ => .error e
  | .ok _, .error e, _ => .error e
  | .ok _, .ok _, .error e => .error e
  | .ok lon, .ok lat, .ok depth =>
    match pyGetAttr properties "mag", pyGetAttr properties "time",
          pyGetAttr properties "place" with
    | .error e, _, _ => .error e
    | .ok _, .error e, _ => .error e
    | .ok _, .ok _, .error e => .error e
    | .ok mag, .ok timeRaw, .ok place =>
      acceptRecord lon lat depth mag timeRaw place

/-- Source lines 111-129 once properties and geometry are in hand: the
truthiness test of line 112 (whose third conjunct `geometry.get(...)`
raises on a truthy non-dict geometry), then the coordinate step. -/
def parseFeatureGeom (properties geometry : JVal) :
    Except PyErr (Option SeismicEvent) :=
  if properties.isTruthy && geometry.isTruthy then
    match pyGetAttr geometry "coordinates" with
    | .error e => .error e
    | .ok coordsVal =>
      if coordsVal.isTruthy then
        parseFeatureCoords properties coordsVal
      else
        .ok none
  else
    .ok none

/-- The body of the per-feature loop of `get_usgs_earthquake_data`
(source lines 107-129): returns `some event` when the record is accepted,
`none` when it is silently skipped, and a `PyErr` when the Python code
would raise (e.g. `geometry['coordinates'][2]` on a short list, or
`time_ms / 1000` on a truthy non-number). -/
def parseFeature (feature : JVal) : Except PyErr (Option SeismicEvent) :=
  match pyGetAttr feature "properties", pyGetAttr feature "geometry" with
  | .error e, _ => .error e
  | .ok _, .error e => .error e
  | .ok properties, .ok geometry => parseFeatureGeom properties geometry

/-- The feature loop: accepted events in order, first raise aborts. -/
def parseFeatures : List JVal → Except PyErr (List SeismicEvent)
  | [] => pure []
  | f :: fs => do
    let ev? ← parseFeature f
    let rest ← parseFeatures fs
    pure (match ev? with
          | some e => e :: rest
          | none => rest)

/-- Parsing of a successfully received catalog response body
(`data.get('features', [])` then the feature loop). -/
def parse_response (data : JVal) : Except PyErr (List SeismicEvent) := do
  let features ← pyGetDefault data "features" (.arr [])
  let fs ← pyIter features
  parseFeatures fs

/-- The transport-level failures `requests` can signal; every one of them is
a `requests.exceptions.RequestException` (`HTTPError` from
`raise_for_status` included) and is caught by the source's `except`. -/
inductive TransportFailure where
  | dnsFailure
  | timeout
  | httpStatus (code : Nat)
  deriving DecidableEq, Repr

def TransportFailure.describe : TransportFailure → String
  | .dnsFailure => "ConnectionError"
  | .timeout => "Timeout"
  | .httpStatus code => "HTTPError " ++ toString code

/-- Outcome of the single HTTP query: a parsed 2xx JSON body, or a
transport failure. -/
inductive HttpOutcome where
  | success (body : JVal)
  | failure (f : TransportFailure)

def USGS_FETCH_MSG : String :=
  "USGS APIから過去" ++ toString (1000 : Nat) ++ "日間のM2.5以上の地震情報を取得中..."

def API_ERROR_LOG (msg : String) : String :=
  "APIからのデータ取得中にエラーが発生しました: " ++ msg

/-- `get_usgs_earthquake_data` (source lines 60-134) given the transport
outcome: on transport failure the exception is caught, logged, and `[]` is
returned; on success the response is parsed (parse errors are NOT caught by
`except requests.exceptions.RequestException` and propagate). -/
def get_usgs_earthquake_data (outcome : HttpOutcome) :
    Except PyErr (List String × List SeismicEvent) :=
  match outcome with
  | .success body =>
    match parse_response body with
    | .ok evs => .ok ([USGS_FETCH_MSG], evs)
    | .error e => .error e
  | .failure f => .ok ([USGS_FETCH_MSG, API_ERROR_LOG f.describe], [])

/-! ## Geometry extraction (source lines 136-179) -/

/-- `extract_coords` (source lines 143-162).  Both `geometry.get('type')`
and `geometry.get('coordinates')` run before the dispatch, so a truthy
non-dict geometry raises.  `Polygon` indexes `geom_coords[0]`
unconditionally; `MultiPolygon` iterates and indexes `poly[0]`. -/
def extract_coords (geometry : JVal) : Except PyErr (List JVal) := do
  let geom_type ← pyGetAttr geometry "type"
  let geom_coords ← pyGetAttr geometry "coordinates"
  if geom_type.eqStr "Point" then
    pure []
  else if geom_type.eqStr "LineString" then
    pure [geom_coords]
  else if geom_type.eqStr "MultiLineString" then
    pyIter geom_coords
  else if geom_type.eqStr "Polygon" then
    let ring ← pyIndex geom_coords 0
    pure [ring]
  else if geom_type.eqStr "MultiPolygon" then
    let polys ← pyIter geom_coords
    polys.mapM fun poly => pyIndex poly 0
  else
    pure []

/-- One iteration of the FeatureCollection loop (source lines 166-169):
`geometry = feature.get('geometry'); if geometry: extend(extract_coords)`. -/
def featureLines (feature : JVal) : Except PyErr (List JVal) := do
  let geometry ← pyGetAttr feature "geometry"
  if geometry.isTruthy then extract_coords geometry else pure []

/-- Whether `key in d` holds for the dict fields `fs`. -/
def dictHasKey (fs : List (String × JVal)) (key : String) : Bool :=
  (dictLookup fs key).isSome

/-- `extract_geojson_lines` (source lines 136-179): dispatch on
FeatureCollection / Feature / bare geometry. -/
def extract_geojson_lines (geojson_data : JVal) : Except PyErr (List JVal) := do
  let t ← pyGetAttr geojson_data "type"
  if t.eqStr "FeatureCollection" then
    let features ← pyGetDefault geojson_data "features" (.arr [])
    let fs ← pyIter features
    let parts ← fs.mapM featureLines
    pure parts.flatten
  else if t.eqStr "Feature" then
    let geometry ← pyGetAttr geojson_data "geometry"
    if geometry.isTruthy then extract_coords geometry else pure []
  else
    match geojson_data with
    | .obj fields =>
      if dictHasKey fields "coordinates" && dictHasKey fields "type" then
        extract_coords geojson_data
      else
        pure []
    | _ => pure []  -- unreachable: `pyGetAttr` above succeeded only on dicts

/-! ## Scene composition (source lines 181-313) -/

/-- The earthquake `Scatter3d` trace: x = longitudes, y = latitudes,
z = negated depths, marker sizes, marker colours = original depths. -/
structure QuakeTrace where
  xs : List Rat
  ys : List Rat
  zs : List Rat
  sizes : List Rat
  colors : List Rat

/-- One boundary-line `Scatter3d` trace: the line's longitudes, latitudes,
and the number of points pinned to z = 0. -/
structure BoundaryTrace where
  lons : List JVal
  lats : List JVal
  numPoints : Nat

/-- The assembled figure: quake trace, the city trace (its marker count),
and the boundary-line traces actually appended. -/
structure Figure where
  quake : QuakeTrace
  cityCount : Nat
  boundary : List BoundaryTrace

/-- Result of the composer: the operator log lines, the figure when one was
built (`none` on the empty-input early return), and the artifact filename
when one was written. -/
structure VisResult where
  logs : List String
  figure : Option Figure
  artifact : Option String

/-- Outcome of `open(GEOJSON_FILE)` + `json.load` (source lines 260-262). -/
inductive FileRead where
  | ok (content : JVal)
  | fileNotFound
  | jsonDecodeError
  | otherReadError (msg : String)

def PyErr.describe : PyErr → String
  | .attributeError => "AttributeError"
  | .indexError => "IndexError"
  | .typeError => "TypeError"
  | .keyError => "KeyError"

def NO_DATA_MSG : String := "可視化する地震情報がありません。"

def COUNT_MSG (n : Nat) : String :=
  "可視化対象の有効な地震データ数: " ++ toString n ++ "件"

def GEOJSON_MISSING_MSG : String :=
  "エラー: GeoJSONファイル " ++ GEOJSON_FILE ++ " が見つかりません。"

def GEOJSON_MALFORMED_MSG : String :=
  "エラー: GeoJSONファイル " ++ GEOJSON_FILE ++ " の形式が不正です。"

def GEOJSON_GENERIC_ERROR_MSG (e : String) : String :=
  "GeoJSONの読み込みまたは処理中にエラーが発生しました: " ++ e

def GEOJSON_EXTRACTED_MSG (k : Nat) : String :=
  "GeoJSONファイル " ++ GEOJSON_FILE ++ " から " ++ toString k ++ " 個の線分を抽出しました。"

def GEOJSON_ADDED_MSG : String := "GeoJSONの線分をプロットに追加しました。"

def SAVED_MSG : String := "グラフが earthquake_map.html として保存されました。"

/-- Python `max(a, b)`: returns `b` only when it is strictly larger. -/
def pyMax (a b : Rat) : Rat := if a < b then b else a

/-- Marker size of one event (source line 212):
`max(EARTHQUAKE_MARKER_SIZE_BASE, mag * MARKER_MAGNITUDE_MULTIPLIER)`.
The stored magnitude was never checked numeric, so a non-numeric magnitude
raises TypeError here. -/
def marker_size (mag : JVal) : Except PyErr Rat := do
  let m ← pyMulFloat mag MARKER_MAGNITUDE_MULTIPLIER
  pure (pyMax EARTHQUAKE_MARKER_SIZE_BASE m)

def marker_sizes (events : List SeismicEvent) : Except PyErr (List Rat) :=
  events.mapM fun e => marker_size e.magnitude

/-- Building one boundary trace (source lines 269-283): two comprehensions
over the line's coordinates taking `coord[0]` and `coord[1]`, then
`[0] * len(line_coords)`. -/
def boundaryTraceOfLine (line : JVal) : Except PyErr BoundaryTrace := do
  let coords ← pyIter line
  let lons ← coords.mapM fun c => pyIndex c 0
  let lats ← coords.mapM fun c => pyIndex c 1
  let n ← pyLen line
  pure { lons := lons, lats := lats, numPoints := n }

/-- The boundary-trace loop appends each trace to `data_to_plot` as it goes;
an exception part-way leaves the already-appended traces in the plot.
Returns the traces appended and the error that stopped the loop, if any. -/
def appendBoundaryTraces : List JVal → List BoundaryTrace →
    List BoundaryTrace × Option PyErr
  | [], acc => (acc, none)
  | l :: ls, acc =>
    match boundaryTraceOfLine l with
    | .ok t => appendBoundaryTraces ls (acc ++ [t])
    | .error e => (acc, some e)

/-- The boundary try/except block (source lines 259-292): returns the log
lines it prints and the boundary traces that end up in the plot.  All
exceptions inside the block are caught (`except Exception` last). -/
def process_boundary (file : FileRead) : List String × List BoundaryTrace :=
  match file with
  | .fileNotFound => ([GEOJSON_MISSING_MSG], [])
  | .jsonDecodeError => ([GEOJSON_MALFORMED_MSG], [])
  | .otherReadError msg => ([GEOJSON_GENERIC_ERROR_MSG msg], [])
  | .ok content =>
    match extract_geojson_lines content with
    | .error e => ([GEOJSON_GENERIC_ERROR_MSG e.describe], [])
    | .ok map_lines =>
      let extractedLog := GEOJSON_EXTRACTED_MSG map_lines.length
      match appendBoundaryTraces map_lines [] with
      | (traces, none) => ([extractedLog, GEOJSON_ADDED_MSG], traces)
      | (traces, some e) => ([extractedLog, GEOJSON_GENERIC_ERROR_MSG e.describe], traces)

/-- `visualize_earthquakes_pure_3d` (source lines 181-313).  An empty event
list returns early with a message, no figure and no artifact.  Otherwise the
quake trace, city trace and boundary traces are assembled and the figure is
written to `earthquake_map.html`.  A non-numeric stored magnitude raises at
the marker-size computation (uncaught). -/
def visualize_earthquakes_pure_3d (events : List SeismicEvent) (file : FileRead) :
    Except PyErr VisResult :=
  if events.isEmpty then
    .ok { logs := [NO_DATA_MSG], figure := none, artifact := none }
  else do
    let sizes ← marker_sizes events
    let quake : QuakeTrace :=
      { xs := events.map (·.longitude)
        ys := events.map (·.latitude)
        zs := events.map fun e => -e.depth
        sizes := sizes
        colors := events.map (·.depth) }
    let (boundaryLogs, boundaryTraces) := process_boundary file
    pure { logs := [COUNT_MSG events.length] ++ boundaryLogs ++ [SAVED_MSG]
           figure := some { quake := quake
                            cityCount := MAJOR_JAPANESE_CITIES.length
                            boundary := boundaryTraces }
           artifact := some "earthquake_map.html" }

/-! ## `__main__` driver (source lines 315-324) -/

def RECEIVED_MSG (n : Nat) : String :=
  "USGS APIから" ++ toString n ++ "件の有効な地震データを受信しました。3D可視化を開始します。"

def MAIN_NO_DATA_MSG : String :=
  "地震情報の取得に失敗したか、利用可能な情報がありませんでした。"

/-- The whole run: fetch (with the given transport outcome), then either
visualize (boundary file read given by `file`) or report the no-data case.
Returns all log lines and the artifact filename, if one was written. -/
def run_main (outcome : HttpOutcome) (file : FileRead) :
    Except PyErr (List String × Option String) :=
  match get_usgs_earthquake_data outcome with
  | .error e => .error e
  | .ok (fetchLogs, evs) =>
    if !evs.isEmpty then
      match visualize_earthquakes_pure_3d evs file with
      | .error e => .error e
      | .ok vis =>
        .ok (fetchLogs ++ [RECEIVED_MSG evs.length] ++ vis.logs, vis.artifact)
    else
      .ok (fetchLogs ++ [MAIN_NO_DATA_MSG], none)

/-! ## Input classes used by the safety analysis (claims C2, C10)

These predicates characterize, on the `JVal` input space, exactly the
shape conditions under which the corresponding source code cannot raise;
they are derived by reading each operation of the source off in order. -/

/-- Coordinate-step shape safety: a truthy coordinates value must support
indices 0, 1 and 2, the properties value must be a dict (its `.get` calls
succeed), and a truthy `time` property must be numeric (else
`time_ms / 1000` raises). -/
def featureSafeCoords (properties coordsVal : JVal) : Bool :=
  (pyIndex coordsVal 0).isOk && (pyIndex coordsVal 1).isOk
    && (pyIndex coordsVal 2).isOk
    && (match pyGetAttr properties "mag", pyGetAttr properties "time",
              pyGetAttr properties "place" with
        | .ok _, .ok timeRaw, .ok _ => !(timeRaw.isTruthy && !timeRaw.isNum)
        | _, _, _ => false)

/-- Geometry-step shape safety: when properties and geometry are both
truthy, the geometry must be a dict, and a truthy coordinates value must
pass the coordinate-step conditions. -/
def featureSafeGeom (properties geometry : JVal) : Bool :=
  if properties.isTruthy && geometry.isTruthy then
    match pyGetAttr geometry "coordinates" with
    | .ok coordsVal =>
      if coordsVal.isTruthy then featureSafeCoords properties coordsVal
      else true
    | .error _ => false
  else
    true

/-- Features on which the per-feature parse step (source lines 107-129)
cannot raise: the feature is a dict and the geometry/coordinate steps are
shape-safe. -/
def featureSafe (feature : JVal) : Bool :=
  match pyGetAttr feature "properties", pyGetAttr feature "geometry" with
  | .ok properties, .ok geometry => featureSafeGeom properties geometry
  | _, _ => false

/-- The claim's record-malformedness conditions at the coordinate step:
non-numeric latitude/longitude/depth, absent depth, or absent magnitude
(read off the accept test of source line 123). -/
def featureMalformedCoords (properties coordsVal : JVal) : Bool :=
  match pyIndex coordsVal 0, pyIndex coordsVal 1, pyIndex coordsVal 2,
        pyGetAttr properties "mag" with
  | .ok lon, .ok lat, .ok depth, .ok mag =>
    !(lat.isNum && lon.isNum && depth.isNum) || depth.isNull || mag.isNull
  | _, _, _, _ => true

/-- The claim's record-malformedness conditions: absent/falsy geometry,
properties or coordinates, or a coordinate-step malformedness. -/
def featureMalformedGeom (properties geometry : JVal) : Bool :=
  if properties.isTruthy && geometry.isTruthy then
    match pyGetAttr geometry "coordinates" with
    | .ok coordsVal =>
      if coordsVal.isTruthy then featureMalformedCoords properties coordsVal
      else true
    | .error _ => true
  else
    true

def featureMalformed (feature : JVal) : Bool :=
  match pyGetAttr feature "properties", pyGetAttr feature "geometry" with
  | .ok properties, .ok geometry => featureMalformedGeom properties geometry
  | _, _ => true

/-- Geometries on which `extract_coords` (source lines 143-162) cannot
raise: a dict whose coordinates are iterable for `MultiLineString`, have a
first element (first ring) for `Polygon`, and are an iterable of
first-element-carrying polygons for `MultiPolygon`.  `Point`, `LineString`
and unknown types never raise. -/
def geometrySafe (g : JVal) : Bool :=
  match g with
  | .obj gfs =>
    if ((dictLookup gfs "type").getD .null).eqStr "MultiLineString" then
      (pyIter ((dictLookup gfs "coordinates").getD .null)).isOk
    else if ((dictLookup gfs "type").getD .null).eqStr "Polygon" then
      (pyIndex ((dictLookup gfs "coordinates").getD .null) 0).isOk
    else if ((dictLookup gfs "type").getD .null).eqStr "MultiPolygon" then
      match pyIter ((dictLookup gfs "coordinates").getD .null) with
      | .ok polys => polys.all fun p => (pyIndex p 0).isOk
      | .error _ => false
    else true
  | _ => false

/-- Features of a FeatureCollection on which the extraction loop cannot
raise: a dict whose truthy geometry is extraction-safe. -/
def featureGeomSafe (f : JVal) : Bool :=
  match f with
  | .obj fs =>
    !((dictLookup fs "geometry").getD .null).isTruthy
      || geometrySafe ((dictLookup fs "geometry").getD .null)
  | _ => false

/-- Boundary documents on which `extract_geojson_lines` cannot raise.  In
particular every `Polygon`, and every polygon of a `MultiPolygon`, must
carry at least one ring in its coordinates. -/
def documentSafe (d : JVal) : Bool :=
  match d with
  | .obj fs =>
    if ((dictLookup fs "type").getD .null).eqStr "FeatureCollection" then
      match pyIter ((dictLookup fs "features").getD (.arr [])) with
      | .ok features => features.all featureGeomSafe
      | .error _ => false
    else if ((dictLookup fs "type").getD .null).eqStr "Feature" then
      !((dictLookup fs "geometry").getD .null).isTruthy
        || geometrySafe ((dictLookup fs "geometry").getD .null)
    else if dictHasKey fs "coordinates" && dictHasKey fs "type" then
      geometrySafe (.obj fs)
    else true
  | _ => false

/-! ## Concrete sample inputs used by the witnesses -/

/-- A geometry dict with the given type tag and coordinates. -/
def mkGeometry (t : String) (c : JVal) : JVal :=
  .obj [("type", .str t), ("coordinates", c)]

/-- A catalog feature in the response shape the source expects:
`geometry.coordinates = [lon, lat, depth]`, `properties = {mag, time,
place}`. -/
def mkFeature (coords : List JVal) (mag : JVal) : JVal :=
  .obj [("properties", .obj [("mag", mag), ("time", .num 1700000000000),
                             ("place", .str "Honshu, Japan")]),
        ("geometry", .obj [("type", .str "Point"),
                           ("coordinates", .arr coords)])]

/-- The spec's end-to-end scenario: three features, one at depth 10 km
(below the 30 km floor). -/
def sampleResponse : JVal :=
  .obj [("features", .arr
    [ mkFeature [.num 139, .num 35, .num 50] (.num 5),
      mkFeature [.num 140, .num 36, .num 10] (.num 4),
      mkFeature [.num 141, .num 37, .num 60] (.num 3) ])]

def sampleEvent1 : SeismicEvent :=
  ⟨35, 139, 50, .num 5, .num 1700000000000, .str "Honshu, Japan"⟩

def sampleEvent3 : SeismicEvent :=
  ⟨37, 141, 60, .num 3, .num 1700000000000, .str "Honshu, Japan"⟩

/-- A boundary document whose extraction succeeds: one LineString feature
and one two-polygon MultiPolygon feature. -/
def sampleBoundaryDoc : JVal :=
  .obj [("type", .str "FeatureCollection"),
        ("features", .arr
          [ .obj [("geometry", mkGeometry "LineString"
              (.arr [.arr [.num 130, .num 30], .arr [.num 131, .num 31]]))],
            .obj [("geometry", mkGeometry "MultiPolygon"
              (.arr [.arr [.arr [.arr [.num 135, .num 35]]],
                     .arr [.arr [.arr [.num 136, .num 36]]]]))] ])]

/-- A boundary document on which trace construction fails part-way: the
first line is drawable, the second (a LineString whose coordinates are the
number 7) raises TypeError when iterated by the plotting loop. -/
def partialFailureDoc : JVal :=
  .obj [("type", .str "FeatureCollection"),
        ("features", .arr
          [ .obj [("geometry", mkGeometry "LineString"
              (.arr [.arr [.num 130, .num 30], .arr [.num 131, .num 31]]))],
            .obj [("geometry", mkGeometry "LineString" (.num 7))] ])]

/-- A catalog feature whose coordinates list is truthy but too short:
`geometry['coordinates'][1]` raises IndexError at source line 114. -/
def shortCoordsFeature : JVal := mkFeature [.num 139] (.num 5)

/-- A well-shaped feature whose magnitude is absent (`None`): malformed in
the claim's sense, skipped by the parse step. -/
def noMagFeature : JVal := mkFeature [.num 139, .num 35, .num 50] .null

/-! ## General helper lemmas -/

lemma exceptBind_ok {α β : Type} (a : α) (f : α → Except PyErr β) :
    ((Except.ok a : Except PyErr α) >>= f) = f a := rfl

lemma exceptBind_error {α β : Type} (e : PyErr) (f : α → Except PyErr β) :
    ((Except.error e : Except PyErr α) >>= f) = .error e := rfl

lemma JVal.ne_null_of_isNull_false {v : JVal} (h : v.isNull = false) :
    v ≠ .null := by
  cases v <;> simp_all [JVal.isNull]

/-- `pyMax` is the lattice maximum. -/
lemma pyMax_eq_max (a b : Rat) : pyMax a b = max a b := by
  unfold pyMax
  rcases lt_or_ge a b with h | h
  · rw [if_pos h, max_eq_right h.le]
  · rw [if_neg (not_lt.mpr h), max_eq_left h]

/-! ## Claim C8 — query window -/

/-- C8: the computed query window satisfies
`startTime = endTime - lookbackDays` exactly (days converted to seconds),
the window width is exactly `lookbackDays` days, and for a positive
lookback the start strictly precedes the end. -/
theorem claim_C8_query_window (now days_ago : Rat) :
    query_start_time now days_ago = query_end_time now - timedelta_days days_ago ∧
    query_end_time now - query_start_time now days_ago = timedelta_days days_ago ∧
    (0 < days_ago → query_start_time now days_ago < query_end_time now) := by
  refine ⟨rfl, by simp [query_start_time], ?_⟩
  intro hd
  have : 0 < timedelta_days days_ago := by
    unfold timedelta_days; positivity
  simp only [query_start_time, query_end_time] at *
  linarith

/-- Witness for C8 at the configured lookback of 1000 days. -/
theorem claim_C8_witness :
    query_start_time 0 DAYS_AGO = query_end_time 0 - timedelta_days DAYS_AGO ∧
    query_start_time 0 DAYS_AGO < query_end_time 0 :=
  ⟨(claim_C8_query_window 0 DAYS_AGO).1,
   (claim_C8_query_window 0 DAYS_AGO).2.2 (by norm_num [DAYS_AGO])⟩

/-! ## Claim C1 — accepted records have depth and magnitude, depth ≥ floor -/

lemma acceptRecord_sound {lon lat depth mag timeRaw place : JVal}
    {e : SeismicEvent}
    (h : acceptRecord lon lat depth mag timeRaw place = .ok (some e)) :
    e.magnitude ≠ JVal.null ∧ e.depth ≥ MIN_DEPTH_KM := by
  unfold acceptRecord at h
  cases htime : (timeRaw.isTruthy && !timeRaw.isNum) with
  | true => simp [htime] at h
  | false =>
    cases hcheck : ((lat.isNum && lon.isNum && depth.isNum)
        && !depth.isNull && !mag.isNull) with
    | false => simp [htime, hcheck] at h
    | true =>
      by_cases hd : depth.toRat ≥ MIN_DEPTH_KM
      · simp only [htime, hcheck, if_pos hd, Bool.false_eq_true, if_false,
                   if_true, Except.ok.injEq, Option.some.injEq] at h
        subst h
        simp only [Bool.and_eq_true, Bool.not_eq_true'] at hcheck
        exact ⟨JVal.ne_null_of_isNull_false hcheck.2, hd⟩
      · simp [htime, hcheck, if_neg hd] at h

lemma parseFeatureCoords_accepted {p c : JVal} {e : SeismicEvent}
    (h : parseFeatureCoords p c = .ok (some e)) :
    e.magnitude ≠ JVal.null ∧ e.depth ≥ MIN_DEPTH_KM := by
  unfold parseFeatureCoords at h
  repeat' split at h
  all_goals first
    | exact acceptRecord_sound h
    | simp at h

lemma parseFeatureGeom_accepted {p g : JVal} {e : SeismicEvent}
    (h : parseFeatureGeom p g = .ok (some e)) :
    e.magnitude ≠ JVal.null ∧ e.depth ≥ MIN_DEPTH_KM := by
  unfold parseFeatureGeom at h
  repeat' split at h
  all_goals first
    | exact parseFeatureCoords_accepted h
    | simp at h

/-- Any record the per-feature parse accepts has a non-`None` magnitude and
a depth at or above the configured floor. -/
lemma parseFeature_accepted {f : JVal} {e : SeismicEvent}
    (h : parseFeature f = .ok (some e)) :
    e.magnitude ≠ JVal.null ∧ e.depth ≥ MIN_DEPTH_KM := by
  unfold parseFeature at h
  repeat' split at h
  all_goals first
    | exact parseFeatureGeom_accepted h
    | simp at h

lemma parseFeatures_sound : ∀ {fs : List JVal} {evs : List SeismicEvent},
    parseFeatures fs = .ok evs →
    ∀ e ∈ evs, e.magnitude ≠ JVal.null ∧ e.depth ≥ MIN_DEPTH_KM := by
  intro fs
  induction fs with
  | nil =>
    intro evs h e he
    rw [show parseFeatures [] = .ok [] from rfl] at h
    simp only [Except.ok.injEq] at h
    subst h
    simp at he
  | cons f fs ih =>
    intro evs h e he
    rw [show parseFeatures (f :: fs)
          = parseFeature f >>= fun ev? => parseFeatures fs >>= fun rest =>
              pure (match ev? with | some e0 => e0 :: rest | none => rest)
        from rfl] at h
    cases hf : parseFeature f with
    | error er => rw [hf, exceptBind_error] at h; exact absurd h (by simp)
    | ok ev? =>
      rw [hf, exceptBind_ok] at h
      cases hr : parseFeatures fs with
      | error er => rw [hr, exceptBind_error] at h; exact absurd h (by simp)
      | ok rest =>
        rw [hr, exceptBind_ok] at h
        simp only [pure, Except.pure, Except.ok.injEq] at h
        subst h
        cases ev? with
        | none => exact ih hr e he
        | some e0 =>
          rcases List.mem_cons.mp he with rfl | hmem
          · exact parseFeature_accepted hf
          · exact ih hr e hmem

lemma parse_response_sound {body : JVal} {evs : List SeismicEvent}
    (h : parse_response body = .ok evs) :
    ∀ e ∈ evs, e.magnitude ≠ JVal.null ∧ e.depth ≥ MIN_DEPTH_KM := by
  unfold parse_response at h
  cases h1 : pyGetDefault body "features" (.arr []) with
  | error er => rw [h1, exceptBind_error] at h; exact absurd h (by simp)
  | ok features =>
    rw [h1, exceptBind_ok] at h
    cases h2 : pyIter features with
    | error er => rw [h2, exceptBind_error] at h; exact absurd h (by simp)
    | ok fs =>
      rw [h2, exceptBind_ok] at h
      exact parseFeatures_sound h

/-- C1: for every catalog response that the fetch step turns into an
accepted list, every accepted record carries its depth and a present
(non-`None`) magnitude, and its depth is at least `MIN_DEPTH_KM`.  (Depth
presence and numeric validity are structural: an accepted `SeismicEvent`
stores depth as a number.) -/
theorem claim_C1_accepted_records (outcome : HttpOutcome) (logs : List String)
    (evs : List SeismicEvent)
    (h : get_usgs_earthquake_data outcome = .ok (logs, evs)) :
    ∀ e ∈ evs, e.magnitude ≠ JVal.null ∧ e.depth ≥ MIN_DEPTH_KM := by
  cases outcome with
  | failure f =>
    simp only [get_usgs_earthquake_data, Except.ok.injEq, Prod.mk.injEq] at h
    rcases h with ⟨-, rfl⟩
    intro e he
    simp at he
  | success body =>
    cases hp : parse_response body with
    | error er => simp [get_usgs_earthquake_data, hp] at h
    | ok evs0 =>
      simp only [get_usgs_earthquake_data, hp, Except.ok.injEq,
                 Prod.mk.injEq] at h
      rcases h with ⟨-, rfl⟩
      exact parse_response_sound hp

/-- Witness for C1: on the sample response the accepted list is the two
deep-enough records, and the claim's property holds of the first. -/
theorem claim_C1_witness :
    sampleEvent1.magnitude ≠ JVal.null ∧ sampleEvent1.depth ≥ MIN_DEPTH_KM :=
  claim_C1_accepted_records (.success sampleResponse) [USGS_FETCH_MSG]
    [sampleEvent1, sampleEvent3] rfl sampleEvent1 (by simp)

/-! ## Claim C9 — extraction is deterministic, in traversal order -/

/-- C9: geometry extraction is a pure function — re-extracting from the
same document yields the identical ordered result — and on a
FeatureCollection the result is the concatenation of the per-feature
extractions in document traversal order. -/
theorem claim_C9_extraction_deterministic (d : JVal) (fs : List JVal)
    (parts : List (List JVal)) (hm : fs.mapM featureLines = .ok parts) :
    extract_geojson_lines d = extract_geojson_lines d ∧
    extract_geojson_lines
        (.obj [("type", .str "FeatureCollection"), ("features", .arr fs)])
      = .ok parts.flatten := by
  refine ⟨rfl, ?_⟩
  have h0 : extract_geojson_lines
      (.obj [("type", .str "FeatureCollection"), ("features", .arr fs)])
      = fs.mapM featureLines >>= fun parts => pure parts.flatten := rfl
  rw [h0, hm, exceptBind_ok]
  rfl

/-- Witness for C9 on a one-feature FeatureCollection. -/
theorem claim_C9_witness :
    extract_geojson_lines
        (.obj [("type", .str "FeatureCollection"),
               ("features", .arr [.obj [("geometry",
                  mkGeometry "LineString" (.arr [.arr [.num 0, .num 0]]))]])])
      = .ok [.arr [.arr [.num 0, .num 0]]] :=
  (claim_C9_extraction_deterministic .null
    [.obj [("geometry", mkGeometry "LineString" (.arr [.arr [.num 0, .num 0]]))]]
    [[.arr [.arr [.num 0, .num 0]]]] rfl).2

/-! ## Claim C3 — per-geometry-type dispatch -/

/-- C3: dispatch per geometry type.  `Point` contributes nothing;
`LineString` contributes exactly its one coordinate sequence;
`MultiLineString` contributes each component sequence; a `Polygon` whose
ring list is non-empty (N ≥ 1 rings; N = 0 is claim C10's concern)
contributes exactly its first (outer) ring; a `MultiPolygon` of K polygons
contributes the K first rings; an unknown or absent type contributes
nothing, without error. -/
theorem claim_C3_geometry_dispatch (c : JVal) (xs : List JVal)
    (r0 : JVal) (rs : List JVal) (polys : List (JVal × List JVal)) (t : String)
    (ht : t ∉ ["Point", "LineString", "MultiLineString", "Polygon",
               "MultiPolygon"]) :
    extract_coords (mkGeometry "Point" c) = .ok [] ∧
    extract_coords (mkGeometry "LineString" c) = .ok [c] ∧
    extract_coords (mkGeometry "MultiLineString" (.arr xs)) = .ok xs ∧
    extract_coords (mkGeometry "Polygon" (.arr (r0 :: rs))) = .ok [r0] ∧
    extract_coords (mkGeometry "MultiPolygon"
        (.arr (polys.map fun p => JVal.arr (p.1 :: p.2))))
      = .ok (polys.map (·.1)) ∧
    extract_coords (mkGeometry t c) = .ok [] ∧
    extract_coords (.obj [("coordinates", c)]) = .ok [] := by
  simp only [List.mem_cons, List.mem_singleton, not_or] at ht
  obtain ⟨h1, h2, h3, h4, h5, -⟩ := ht
  refine ⟨rfl, rfl, rfl, rfl, ?_, ?_, rfl⟩
  · have h0 : extract_coords (mkGeometry "MultiPolygon"
          (.arr (polys.map fun p => JVal.arr (p.1 :: p.2))))
        = (polys.map fun p => JVal.arr (p.1 :: p.2)).mapM
            (fun poly => pyIndex poly 0) := rfl
    rw [h0]
    clear h0
    induction polys with
    | nil => rfl
    | cons p ps ih =>
      rw [List.map_cons, List.mapM_cons,
          show pyIndex (JVal.arr (p.1 :: p.2)) 0 = .ok p.1 from rfl,
          exceptBind_ok, ih, exceptBind_ok]
      rfl
  · have h6 : extract_coords (mkGeometry t c)
        = (if t == "Point" then pure []
           else if t == "LineString" then pure [c]
           else if t == "MultiLineString" then pyIter c
           else if t == "Polygon" then (fun a => [a]) <$> pyIndex c 0
           else if t == "MultiPolygon" then
             pyIter c >>= fun polys => polys.mapM fun poly => pyIndex poly 0
           else pure []) := rfl
    rw [h6]
    simp only [beq_iff_eq]
    rw [if_neg h1, if_neg h2, if_neg h3, if_neg h4, if_neg h5]
    rfl

/-- Witness for C3 at concrete geometries (unknown type "Foo"). -/
theorem claim_C3_witness :
    extract_coords (mkGeometry "Point" (.arr [])) = .ok [] ∧
    extract_coords (mkGeometry "LineString" (.arr [])) = .ok [.arr []] ∧
    extract_coords (mkGeometry "MultiLineString" (.arr [.null])) = .ok [.null] ∧
    extract_coords (mkGeometry "Polygon" (.arr [.num 1, .num 2])) = .ok [.num 1] ∧
    extract_coords (mkGeometry "MultiPolygon"
        (.arr ([((JVal.num 3), [JVal.num 4])].map fun p => JVal.arr (p.1 :: p.2))))
      = .ok [.num 3] ∧
    extract_coords (mkGeometry "Foo" (.arr [])) = .ok [] ∧
    extract_coords (.obj [("coordinates", .arr [])]) = .ok [] :=
  claim_C3_geometry_dispatch (.arr []) [.null] (.num 1) [.num 2]
    [((JVal.num 3), [JVal.num 4])] "Foo" (by decide)

/-! ## Claim C4 — transport failures are caught -/

/-- C4: every transport-level failure (DNS failure, timeout, non-2xx HTTP
status — each a `requests.exceptions.RequestException`) is caught: the
function logs the error line for the operator and returns the empty list
instead of raising. -/
theorem claim_C4_transport_failure_caught (f : TransportFailure) :
    get_usgs_earthquake_data (.failure f)
      = .ok ([USGS_FETCH_MSG, API_ERROR_LOG f.describe], []) := rfl

/-! ## Claim C6 — empty accepted list -/

/-- C6: on an empty accepted-event list the composer returns early: no
figure is assembled, no artifact filename is written, and the operator is
told there is nothing to visualize; and at the `__main__` level a run whose
fetch produced no events writes no artifact and reports the no-data
message. -/
theorem claim_C6_empty_events (file : FileRead) (outcome : HttpOutcome)
    (logs : List String)
    (h : get_usgs_earthquake_data outcome = .ok (logs, [])) :
    visualize_earthquakes_pure_3d [] file
      = .ok { logs := [NO_DATA_MSG], figure := none, artifact := none } ∧
    run_main outcome file = .ok (logs ++ [MAIN_NO_DATA_MSG], none) := by
  refine ⟨rfl, ?_⟩
  unfold run_main
  rw [h]
  rfl

/-- Witness for C6: a timed-out fetch yields no events, and the run writes
no artifact. -/
theorem claim_C6_witness :
    visualize_earthquakes_pure_3d [] .fileNotFound
      = .ok { logs := [NO_DATA_MSG], figure := none, artifact := none } ∧
    run_main (.failure .timeout) .fileNotFound
      = .ok ([USGS_FETCH_MSG, API_ERROR_LOG TransportFailure.timeout.describe,
              MAIN_NO_DATA_MSG], none) :=
  claim_C6_empty_events .fileNotFound (.failure .timeout)
    [USGS_FETCH_MSG, API_ERROR_LOG TransportFailure.timeout.describe] rfl

/-! ## Claim C7 — marker size formula -/

lemma marker_size_of_num (mag : JVal) (h : mag.isNum = true) :
    marker_size mag
      = .ok (pyMax EARTHQUAKE_MARKER_SIZE_BASE
          (mag.toRat * MARKER_MAGNITUDE_MULTIPLIER)) := by
  unfold marker_size pyMulFloat
  rw [h]
  rfl

lemma marker_sizes_of_num : ∀ {events : List SeismicEvent},
    (∀ e ∈ events, e.magnitude.isNum = true) →
    marker_sizes events = .ok (events.map fun e =>
      pyMax EARTHQUAKE_MARKER_SIZE_BASE
        (e.magnitude.toRat * MARKER_MAGNITUDE_MULTIPLIER)) := by
  intro events
  induction events with
  | nil => intro _; rfl
  | cons e es ih =>
    intro hnum
    have he := hnum e (by simp)
    unfold marker_sizes
    rw [List.mapM_cons, marker_size_of_num e.magnitude he, exceptBind_ok]
    have hes := ih fun x hx => hnum x (List.mem_cons_of_mem _ hx)
    unfold marker_sizes at hes
    rw [hes, exceptBind_ok]
    rfl

/-- On a non-empty event list with numeric magnitudes the composer
succeeds, and its figure is fully determined: quake trace from the events,
the full city table, boundary traces from the boundary file. -/
lemma visualize_eq_of_num (events : List SeismicEvent) (file : FileRead)
    (hne : events ≠ [])
    (hnum : ∀ e ∈ events, e.magnitude.isNum = true) :
    visualize_earthquakes_pure_3d events file = .ok
      { logs := [COUNT_MSG events.length]
                  ++ (process_boundary file).1 ++ [SAVED_MSG]
        figure := some
          { quake :=
              { xs := events.map (·.longitude)
                ys := events.map (·.latitude)
                zs := events.map fun e => -e.depth
                sizes := events.map fun e =>
                  pyMax EARTHQUAKE_MARKER_SIZE_BASE
                    (e.magnitude.toRat * MARKER_MAGNITUDE_MULTIPLIER)
                colors := events.map (·.depth) }
            cityCount := MAJOR_JAPANESE_CITIES.length
            boundary := (process_boundary file).2 }
        artifact := some "earthquake_map.html" } := by
  have hemp : events.isEmpty = false := by
    cases events with
    | nil => exact absurd rfl hne
    | cons e es => rfl
  unfold visualize_earthquakes_pure_3d
  rw [hemp]
  simp only [Bool.false_eq_true, if_false]
  rw [marker_sizes_of_num hnum, exceptBind_ok]
  rfl

/-- C7: every event marker's plotted size is
`max(baseSize, magnitude * sizeMultiplier)`; with the configured base 3
and multiplier 1.0 a magnitude-2.0 event gets size 3 and a magnitude-6.0
event gets size 6; and the sizes entering the assembled figure follow the
same formula for every event. -/
theorem claim_C7_marker_size (events : List SeismicEvent) (file : FileRead)
    (m : Rat) (hne : events ≠ [])
    (hnum : ∀ e ∈ events, e.magnitude.isNum = true) :
    marker_size (.num m)
      = .ok (max EARTHQUAKE_MARKER_SIZE_BASE (m * MARKER_MAGNITUDE_MULTIPLIER)) ∧
    marker_size (.num 2) = .ok 3 ∧
    marker_size (.num 6) = .ok 6 ∧
    ∃ out fig, visualize_earthquakes_pure_3d events file = .ok out ∧
      out.figure = some fig ∧
      fig.quake.sizes = events.map fun e =>
        max EARTHQUAKE_MARKER_SIZE_BASE
          (e.magnitude.toRat * MARKER_MAGNITUDE_MULTIPLIER) := by
  refine ⟨?_, ?_, ?_, ?_⟩
  · rw [marker_size_of_num (.num m) rfl, pyMax_eq_max]
    rfl
  · rw [marker_size_of_num (.num 2) rfl]
    norm_num [pyMax, EARTHQUAKE_MARKER_SIZE_BASE, MARKER_MAGNITUDE_MULTIPLIER,
              JVal.toRat]
  · rw [marker_size_of_num (.num 6) rfl]
    norm_num [pyMax, EARTHQUAKE_MARKER_SIZE_BASE, MARKER_MAGNITUDE_MULTIPLIER,
              JVal.toRat]
  · refine ⟨_, _, visualize_eq_of_num events file hne hnum, rfl, ?_⟩
    simp only [pyMax_eq_max]

/-- Witness for C7 on a single magnitude-5 event. -/
theorem claim_C7_witness :
    marker_size (.num 2)
      = .ok (max EARTHQUAKE_MARKER_SIZE_BASE (2 * MARKER_MAGNITUDE_MULTIPLIER)) ∧
    marker_size (.num 2) = .ok 3 ∧
    marker_size (.num 6) = .ok 6 ∧
    ∃ out fig,
      visualize_earthquakes_pure_3d [sampleEvent1] .fileNotFound = .ok out ∧
      out.figure = some fig ∧
      fig.quake.sizes = [sampleEvent1].map fun e =>
        max EARTHQUAKE_MARKER_SIZE_BASE
          (e.magnitude.toRat * MARKER_MAGNITUDE_MULTIPLIER) :=
  claim_C7_marker_size [sampleEvent1] .fileNotFound 2 (by simp)
    (fun e he => by simp only [List.mem_singleton] at he; subst he; rfl)

/-! ## Claim C10 — extraction totality under ring presence -/

lemma mapM_pyIndex_isOk : ∀ (polys : List JVal),
    (∀ p ∈ polys, (pyIndex p 0).isOk = true) →
    (polys.mapM fun poly => pyIndex poly 0).isOk = true := by
  intro polys
  induction polys with
  | nil => intro _; rfl
  | cons p ps ih =>
    intro hall
    rw [List.mapM_cons]
    cases hp : pyIndex p 0 with
    | error e =>
      have hok := hall p (by simp)
      rw [hp] at hok
      simp [Except.isOk, Except.toBool] at hok
    | ok r =>
      rw [exceptBind_ok]
      cases hm : ps.mapM fun poly => pyIndex poly 0 with
      | error e =>
        have hok := ih fun x hx => hall x (List.mem_cons_of_mem _ hx)
        rw [hm] at hok
        simp [Except.isOk, Except.toBool] at hok
      | ok rs => rw [exceptBind_ok]; rfl

lemma extract_coords_safe : ∀ {g : JVal}, geometrySafe g = true →
    (extract_coords g).isOk = true := by
  intro g h
  cases g with
  | null => exact absurd h (by simp [geometrySafe])
  | bool b => exact absurd h (by simp [geometrySafe])
  | num q => exact absurd h (by simp [geometrySafe])
  | str s => exact absurd h (by simp [geometrySafe])
  | arr xs => exact absurd h (by simp [geometrySafe])
  | obj gfs =>
    rw [show extract_coords (JVal.obj gfs) =
        (if ((dictLookup gfs "type").getD .null).eqStr "Point" then pure []
         else if ((dictLookup gfs "type").getD .null).eqStr "LineString" then
           pure [(dictLookup gfs "coordinates").getD .null]
         else if ((dictLookup gfs "type").getD .null).eqStr "MultiLineString"
             then pyIter ((dictLookup gfs "coordinates").getD .null)
         else if ((dictLookup gfs "type").getD .null).eqStr "Polygon" then
           (fun a => [a])
             <$> pyIndex ((dictLookup gfs "coordinates").getD .null) 0
         else if ((dictLookup gfs "type").getD .null).eqStr "MultiPolygon"
             then
           pyIter ((dictLookup gfs "coordinates").getD .null) >>= fun polys =>
             polys.mapM fun poly => pyIndex poly 0
         else pure []) from rfl]
    have h' : (if ((dictLookup gfs "type").getD .null).eqStr "MultiLineString"
          then (pyIter ((dictLookup gfs "coordinates").getD .null)).isOk
        else if ((dictLookup gfs "type").getD .null).eqStr "Polygon" then
          (pyIndex ((dictLookup gfs "coordinates").getD .null) 0).isOk
        else if ((dictLookup gfs "type").getD .null).eqStr "MultiPolygon" then
          (match pyIter ((dictLookup gfs "coordinates").getD .null) with
           | .ok polys => polys.all fun p => (pyIndex p 0).isOk
           | .error _ => false)
        else true) = true := h
    clear h
    by_cases p1 : ((dictLookup gfs "type").getD .null).eqStr "Point" = true
    · rw [if_pos p1]; rfl
    rw [if_neg p1]
    by_cases p2 :
        ((dictLookup gfs "type").getD .null).eqStr "LineString" = true
    · rw [if_pos p2]; rfl
    rw [if_neg p2]
    by_cases p3 :
        ((dictLookup gfs "type").getD .null).eqStr "MultiLineString" = true
    · rw [if_pos p3]
      rw [if_pos p3] at h'
      exact h'
    rw [if_neg p3]
    rw [if_neg p3] at h'
    by_cases p4 : ((dictLookup gfs "type").getD .null).eqStr "Polygon" = true
    · rw [if_pos p4]
      rw [if_pos p4] at h'
      cases hpi : pyIndex ((dictLookup gfs "coordinates").getD .null) 0 with
      | error e => rw [hpi] at h'; simp [Except.isOk, Except.toBool] at h'
      | ok r => rfl
    rw [if_neg p4]
    rw [if_neg p4] at h'
    by_cases p5 :
        ((dictLookup gfs "type").getD .null).eqStr "MultiPolygon" = true
    · rw [if_pos p5]
      rw [if_pos p5] at h'
      cases hit : pyIter ((dictLookup gfs "coordinates").getD .null) with
      | error e => rw [hit] at h'; simp at h'
      | ok polys =>
        rw [hit] at h'
        rw [exceptBind_ok]
        exact mapM_pyIndex_isOk polys (by simpa using h')
    rw [if_neg p5]
    rfl

lemma featureLines_safe {f : JVal} (h : featureGeomSafe f = true) :
    (featureLines f).isOk = true := by
  cases f with
  | null => exact absurd h (by simp [featureGeomSafe])
  | bool b => exact absurd h (by simp [featureGeomSafe])
  | num q => exact absurd h (by simp [featureGeomSafe])
  | str s => exact absurd h (by simp [featureGeomSafe])
  | arr xs => exact absurd h (by simp [featureGeomSafe])
  | obj fs =>
    rw [show featureLines (JVal.obj fs) =
        (if ((dictLookup fs "geometry").getD .null).isTruthy then
           extract_coords ((dictLookup fs "geometry").getD .null)
         else pure []) from rfl]
    have h' : (!((dictLookup fs "geometry").getD .null).isTruthy
        || geometrySafe ((dictLookup fs "geometry").getD .null)) = true := h
    clear h
    by_cases ht : ((dictLookup fs "geometry").getD .null).isTruthy = true
    · rw [if_pos ht]
      rw [ht] at h'
      simp only [Bool.not_true, Bool.false_or] at h'
      exact extract_coords_safe h'
    · rw [if_neg ht]; rfl

lemma mapM_featureLines_isOk : ∀ (fs : List JVal),
    (∀ f ∈ fs, featureGeomSafe f = true) →
    (fs.mapM featureLines).isOk = true := by
  intro fs
  induction fs with
  | nil => intro _; rfl
  | cons f fs ih =>
    intro hall
    rw [List.mapM_cons]
    cases hf : featureLines f with
    | error e =>
      have hok := featureLines_safe (hall f (by simp))
      rw [hf] at hok
      simp [Except.isOk, Except.toBool] at hok
    | ok ls =>
      rw [exceptBind_ok]
      cases hm : fs.mapM featureLines with
      | error e =>
        have hok := ih fun x hx => hall x (List.mem_cons_of_mem _ hx)
        rw [hm] at hok
        simp [Except.isOk, Except.toBool] at hok
      | ok parts => rw [exceptBind_ok]; rfl

lemma extract_geojson_lines_safe {d : JVal} (h : documentSafe d = true) :
    (extract_geojson_lines d).isOk = true := by
  cases d with
  | null => exact absurd h (by simp [documentSafe])
  | bool b => exact absurd h (by simp [documentSafe])
  | num q => exact absurd h (by simp [documentSafe])
  | str s => exact absurd h (by simp [documentSafe])
  | arr xs => exact absurd h (by simp [documentSafe])
  | obj fs =>
    rw [show extract_geojson_lines (JVal.obj fs) =
        (if ((dictLookup fs "type").getD .null).eqStr "FeatureCollection" then
           pyIter ((dictLookup fs "features").getD (.arr [])) >>= fun fl =>
             fl.mapM featureLines >>= fun parts => pure parts.flatten
         else if ((dictLookup fs "type").getD .null).eqStr "Feature" then
           (if ((dictLookup fs "geometry").getD .null).isTruthy then
              extract_coords ((dictLookup fs "geometry").getD .null)
            else pure [])
         else if dictHasKey fs "coordinates" && dictHasKey fs "type" then
           extract_coords (.obj fs)
         else pure []) from rfl]
    have h' : (if ((dictLookup fs "type").getD .null).eqStr "FeatureCollection"
          then
          (match pyIter ((dictLookup fs "features").getD (.arr [])) with
           | .ok features => features.all featureGeomSafe
           | .error _ => false)
        else if ((dictLookup fs "type").getD .null).eqStr "Feature" then
          !((dictLookup fs "geometry").getD .null).isTruthy
            || geometrySafe ((dictLookup fs "geometry").getD .null)
        else if dictHasKey fs "coordinates" && dictHasKey fs "type" then
          geometrySafe (.obj fs)
        else true) = true := h
    clear h
    by_cases p1 :
        ((dictLookup fs "type").getD .null).eqStr "FeatureCollection" = true
    · rw [if_pos p1]
      rw [if_pos p1] at h'
      cases hit : pyIter ((dictLookup fs "features").getD (.arr [])) with
      | error e => rw [hit] at h'; simp at h'
      | ok features =>
        rw [hit] at h'
        rw [exceptBind_ok]
        cases hm : features.mapM featureLines with
        | error e =>
          have hok := mapM_featureLines_isOk features (by simpa using h')
          rw [hm] at hok
          simp [Except.isOk, Except.toBool] at hok
        | ok parts => rw [exceptBind_ok]; rfl
    rw [if_neg p1]
    rw [if_neg p1] at h'
    by_cases p2 : ((dictLookup fs "type").getD .null).eqStr "Feature" = true
    · rw [if_pos p2]
      rw [if_pos p2] at h'
      by_cases ht : ((dictLookup fs "geometry").getD .null).isTruthy = true
      · rw [if_pos ht]
        rw [ht] at h'
        simp only [Bool.not_true, Bool.false_or] at h'
        exact extract_coords_safe h'
      · rw [if_neg ht]; rfl
    rw [if_neg p2]
    rw [if_neg p2] at h'
    by_cases p3 : (dictHasKey fs "coordinates" && dictHasKey fs "type") = true
    · rw [if_pos p3]
      rw [if_pos p3] at h'
      exact extract_coords_safe h'
    · rw [if_neg p3]; rfl

/-- C10: extraction is total exactly under the (spec-unstated) ring-presence
precondition: on every boundary document whose geometries are
extraction-shaped and in which every `Polygon` — and every polygon of a
`MultiPolygon` — has at least one ring in its coordinates,
`extract_geojson_lines` returns a list without error; a `Polygon` carrying
an empty ring list is outside the guarantee: its first ring is indexed
unconditionally and IndexError is raised. -/
theorem claim_C10_ring_presence_safety (d : JVal) (h : documentSafe d = true) :
    (extract_geojson_lines d).isOk = true ∧
    extract_geojson_lines
        (.obj [("type", .str "Polygon"), ("coordinates", .arr [])])
      = .error .indexError :=
  ⟨extract_geojson_lines_safe h, rfl⟩

/-- Witness for C10 on a sample FeatureCollection with a LineString and a
two-polygon MultiPolygon, each polygon with one ring. -/
theorem claim_C10_witness :
    (extract_geojson_lines sampleBoundaryDoc).isOk = true ∧
    extract_geojson_lines
        (.obj [("type", .str "Polygon"), ("coordinates", .arr [])])
      = .error .indexError :=
  claim_C10_ring_presence_safety sampleBoundaryDoc rfl

/-! ## Claim C2 — malformed records are skipped silently (corrected) -/

lemma bool_not_eq_true {b : Bool} (h : (!b) = true) : b = false := by
  cases b
  · rfl
  · exact absurd h (by decide)

lemma acceptRecord_isOk {lon lat depth mag timeRaw place : JVal}
    (h : (timeRaw.isTruthy && !timeRaw.isNum) = false) :
    (acceptRecord lon lat depth mag timeRaw place).isOk = true := by
  unfold acceptRecord
  rw [h, if_neg Bool.false_ne_true]
  split
  · split
    · rfl
    · rfl
  · rfl

lemma acceptRecord_skip {lon lat depth mag timeRaw place : JVal}
    (htime : (timeRaw.isTruthy && !timeRaw.isNum) = false)
    (hmal : (!(lat.isNum && lon.isNum && depth.isNum) || depth.isNull
        || mag.isNull) = true) :
    acceptRecord lon lat depth mag timeRaw place = .ok none := by
  unfold acceptRecord
  rw [htime, if_neg Bool.false_ne_true]
  have hcond : ((lat.isNum && lon.isNum && depth.isNum)
      && !depth.isNull && !mag.isNull) = false := by
    revert hmal
    cases lat.isNum <;> cases lon.isNum <;> cases depth.isNum <;>
      cases depth.isNull <;> cases mag.isNull <;> decide
  rw [hcond, if_neg Bool.false_ne_true]

lemma parseFeatureCoords_safe {p c : JVal}
    (h : featureSafeCoords p c = true) :
    (parseFeatureCoords p c).isOk = true := by
  unfold featureSafeCoords at h
  simp only [Bool.and_eq_true] at h
  obtain ⟨⟨⟨h0, h1⟩, h2⟩, hM⟩ := h
  unfold parseFeatureCoords
  cases hx0 : pyIndex c 0 with
  | error e => rw [hx0] at h0; simp [Except.isOk, Except.toBool] at h0
  | ok lon =>
    cases hx1 : pyIndex c 1 with
    | error e => rw [hx1] at h1; simp [Except.isOk, Except.toBool] at h1
    | ok lat =>
      cases hx2 : pyIndex c 2 with
      | error e => rw [hx2] at h2; simp [Except.isOk, Except.toBool] at h2
      | ok depth =>
        cases hmg : pyGetAttr p "mag" with
        | error e => rw [hmg] at hM; simp at hM
        | ok mag =>
          cases ht : pyGetAttr p "time" with
          | error e => rw [hmg, ht] at hM; simp at hM
          | ok timeRaw =>
            cases hpl : pyGetAttr p "place" with
            | error e => rw [hmg, ht, hpl] at hM; simp at hM
            | ok place =>
              rw [hmg, ht, hpl] at hM
              exact acceptRecord_isOk (bool_not_eq_true hM)

lemma parseFeatureCoords_skip {p c : JVal}
    (hs : featureSafeCoords p c = true)
    (hm : featureMalformedCoords p c = true) :
    parseFeatureCoords p c = .ok none := by
  unfold featureSafeCoords at hs
  simp only [Bool.and_eq_true] at hs
  obtain ⟨⟨⟨h0, h1⟩, h2⟩, hM⟩ := hs
  unfold featureMalformedCoords at hm
  unfold parseFeatureCoords
  cases hx0 : pyIndex c 0 with
  | error e => rw [hx0] at h0; simp [Except.isOk, Except.toBool] at h0
  | ok lon =>
    cases hx1 : pyIndex c 1 with
    | error e => rw [hx1] at h1; simp [Except.isOk, Except.toBool] at h1
    | ok lat =>
      cases hx2 : pyIndex c 2 with
      | error e => rw [hx2] at h2; simp [Except.isOk, Except.toBool] at h2
      | ok depth =>
        rw [hx0, hx1, hx2] at hm
        cases hmg : pyGetAttr p "mag" with
        | error e => rw [hmg] at hM; simp at hM
        | ok mag =>
          cases ht : pyGetAttr p "time" with
          | error e => rw [hmg, ht] at hM; simp at hM
          | ok timeRaw =>
            cases hpl : pyGetAttr p "place" with
            | error e => rw [hmg, ht, hpl] at hM; simp at hM
            | ok place =>
              rw [hmg, ht, hpl] at hM
              rw [hmg] at hm
              exact acceptRecord_skip (bool_not_eq_true hM) hm

lemma parseFeatureGeom_safe {p g : JVal} (hs : featureSafeGeom p g = true) :
    (parseFeatureGeom p g).isOk = true := by
  unfold featureSafeGeom at hs
  unfold parseFeatureGeom
  by_cases htr : (p.isTruthy && g.isTruthy) = true
  · rw [if_pos htr] at hs ⊢
    cases hc : pyGetAttr g "coordinates" with
    | error e => rw [hc] at hs; simp at hs
    | ok coordsVal =>
      rw [hc] at hs
      replace hs : (if coordsVal.isTruthy = true then
          featureSafeCoords p coordsVal else true) = true := hs
      by_cases hct : coordsVal.isTruthy = true
      · rw [if_pos hct] at hs
        show (if coordsVal.isTruthy = true then parseFeatureCoords p coordsVal
              else Except.ok none).isOk = true
        rw [if_pos hct]
        exact parseFeatureCoords_safe hs
      · show (if coordsVal.isTruthy = true then parseFeatureCoords p coordsVal
              else Except.ok none).isOk = true
        rw [if_neg hct]
        rfl
  · rw [if_neg htr]
    rfl

lemma parseFeatureGeom_skip {p g : JVal}
    (hs : featureSafeGeom p g = true)
    (hm : featureMalformedGeom p g = true) :
    parseFeatureGeom p g = .ok none := by
  unfold featureSafeGeom at hs
  unfold featureMalformedGeom at hm
  unfold parseFeatureGeom
  by_cases htr : (p.isTruthy && g.isTruthy) = true
  · rw [if_pos htr] at hs hm ⊢
    cases hc : pyGetAttr g "coordinates" with
    | error e => rw [hc] at hs; simp at hs
    | ok coordsVal =>
      rw [hc] at hs hm
      replace hs : (if coordsVal.isTruthy = true then
          featureSafeCoords p coordsVal else true) = true := hs
      replace hm : (if coordsVal.isTruthy = true then
          featureMalformedCoords p coordsVal else true) = true := hm
      by_cases hct : coordsVal.isTruthy = true
      · rw [if_pos hct] at hs hm
        show (if coordsVal.isTruthy = true then parseFeatureCoords p coordsVal
              else Except.ok none) = .ok none
        rw [if_pos hct]
        exact parseFeatureCoords_skip hs hm
      · show (if coordsVal.isTruthy = true then parseFeatureCoords p coordsVal
              else Except.ok none) = .ok none
        rw [if_neg hct]
  · rw [if_neg htr]

lemma parseFeature_safe {f : JVal} (hs : featureSafe f = true) :
    (parseFeature f).isOk = true := by
  unfold featureSafe at hs
  unfold parseFeature
  cases hp : pyGetAttr f "properties" with
  | error e => rw [hp] at hs; simp at hs
  | ok properties =>
    cases hg : pyGetAttr f "geometry" with
    | error e => rw [hp, hg] at hs; simp at hs
    | ok geometry =>
      rw [hp, hg] at hs
      exact parseFeatureGeom_safe hs

lemma parseFeature_skip {f : JVal}
    (hs : featureSafe f = true) (hm : featureMalformed f = true) :
    parseFeature f = .ok none := by
  unfold featureSafe at hs
  unfold featureMalformed at hm
  unfold parseFeature
  cases hp : pyGetAttr f "properties" with
  | error e => rw [hp] at hs; simp at hs
  | ok properties =>
    cases hg : pyGetAttr f "geometry" with
    | error e => rw [hp, hg] at hs; simp at hs
    | ok geometry =>
      rw [hp, hg] at hs hm
      exact parseFeatureGeom_skip hs hm

/-- A feature the parse step skips leaves the rest of the loop unchanged. -/
lemma parseFeatures_skip {f : JVal} {fs : List JVal}
    (h : parseFeature f = .ok none) :
    parseFeatures (f :: fs) = parseFeatures fs := by
  rw [show parseFeatures (f :: fs)
        = parseFeature f >>= fun ev? => parseFeatures fs >>= fun rest =>
            pure (match ev? with | some e0 => e0 :: rest | none => rest)
      from rfl]
  rw [h, exceptBind_ok]
  exact bind_pure (parseFeatures fs)

/-- C2 counterexample: the feature below is malformed in the claim's own
terms (its latitude is missing: the coordinates list has one entry), yet
the parse step raises an uncaught IndexError instead of skipping it. -/
theorem claim_C2_counterexample :
    featureMalformed shortCoordsFeature = true ∧
    parseFeature shortCoordsFeature = .error .indexError ∧
    parse_response (.obj [("features", .arr [shortCoordsFeature])])
      = .error .indexError :=
  ⟨rfl, rfl, rfl⟩

/-- C2 (amended): for every feature whose shape is parse-safe (the feature,
and its properties and geometry where accessed, are dicts; a truthy
coordinates value supports indices 0-2; a truthy time value is numeric),
the parse step never raises; a malformed record (absent/falsy geometry,
properties or coordinates, non-numeric latitude/longitude/depth, or absent
magnitude) is skipped silently and parsing continues with the remaining
features unchanged.  Outside that shape — e.g. a truthy coordinates list
with fewer than three entries — the parse step raises an uncaught error
(see the counterexample). -/
theorem claim_C2_amended_silent_skip (f : JVal) (fs : List JVal)
    (hsafe : featureSafe f = true) :
    (parseFeature f).isOk = true ∧
    (featureMalformed f = true → parseFeature f = .ok none) ∧
    (parseFeature f = .ok none → parseFeatures (f :: fs) = parseFeatures fs) :=
  ⟨parseFeature_safe hsafe,
   fun hm => parseFeature_skip hsafe hm,
   fun hn => parseFeatures_skip hn⟩

/-- Witness for C2 (amended) on a magnitude-less feature. -/
theorem claim_C2_witness :
    parseFeature noMagFeature = .ok none ∧
    parseFeatures [noMagFeature] = parseFeatures [] :=
  ⟨(claim_C2_amended_silent_skip noMagFeature [] rfl).2.1 rfl,
   (claim_C2_amended_silent_skip noMagFeature [] rfl).2.2
     ((claim_C2_amended_silent_skip noMagFeature [] rfl).2.1 rfl)⟩

/-! ## Claim C5 — boundary failures degrade the scene (corrected) -/

/-- C5 counterexample: when trace construction fails part-way (here on the
second of two extracted lines), the already-built boundary traces stay in
the scene — the composer does NOT continue "without boundary lines" as the
claim states for "any other processing error". -/
theorem claim_C5_counterexample :
    process_boundary (.ok partialFailureDoc)
      = ([GEOJSON_EXTRACTED_MSG 2, GEOJSON_GENERIC_ERROR_MSG "TypeError"],
         [⟨[.num 130, .num 131], [.num 30, .num 31], 2⟩]) ∧
    ∃ out fig,
      visualize_earthquakes_pure_3d [sampleEvent1] (.ok partialFailureDoc)
        = .ok out ∧ out.figure = some fig ∧ fig.boundary ≠ [] := by
  refine ⟨rfl, ?_⟩
  refine ⟨_, _, visualize_eq_of_num [sampleEvent1] (.ok partialFailureDoc)
    (by simp)
    (fun e he => by simp only [List.mem_singleton] at he; subst he; rfl),
    rfl, ?_⟩
  rw [show (process_boundary (FileRead.ok partialFailureDoc)).2
        = [(⟨[JVal.num 130, JVal.num 131], [JVal.num 30, JVal.num 31], 2⟩ :
            BoundaryTrace)] from rfl]
  exact List.cons_ne_nil _ _

/-- C5 (amended): every boundary failure is caught and logged with its
category — file missing, malformed JSON, other read failure, extraction
failure, trace-construction failure — and never aborts the visualization;
in the missing/malformed/read/extraction cases the scene has no boundary
lines, but when trace construction fails at line k the first k traces
already appended remain in the scene. -/
theorem claim_C5_amended_degraded (msg : String) (content : JVal)
    (e0 : PyErr) (ls : List JVal) (events : List SeismicEvent)
    (file : FileRead) (hne : events ≠ [])
    (hnum : ∀ e ∈ events, e.magnitude.isNum = true) :
    process_boundary .fileNotFound = ([GEOJSON_MISSING_MSG], []) ∧
    process_boundary .jsonDecodeError = ([GEOJSON_MALFORMED_MSG], []) ∧
    process_boundary (.otherReadError msg)
      = ([GEOJSON_GENERIC_ERROR_MSG msg], []) ∧
    (GEOJSON_MISSING_MSG ≠ GEOJSON_MALFORMED_MSG ∧
     GEOJSON_GENERIC_ERROR_MSG e0.describe ≠ GEOJSON_MISSING_MSG ∧
     GEOJSON_GENERIC_ERROR_MSG e0.describe ≠ GEOJSON_MALFORMED_MSG) ∧
    (extract_geojson_lines content = .error e0 →
      process_boundary (.ok content)
        = ([GEOJSON_GENERIC_ERROR_MSG e0.describe], [])) ∧
    (extract_geojson_lines content = .ok ls →
      process_boundary (.ok content)
        = ((match (appendBoundaryTraces ls []).2 with
            | none => [GEOJSON_EXTRACTED_MSG ls.length, GEOJSON_ADDED_MSG]
            | some e => [GEOJSON_EXTRACTED_MSG ls.length,
                         GEOJSON_GENERIC_ERROR_MSG e.describe]),
           (appendBoundaryTraces ls []).1)) ∧
    (visualize_earthquakes_pure_3d events file).isOk = true := by
  have hpb : process_boundary (.ok content)
      = (match extract_geojson_lines content with
         | .error e => ([GEOJSON_GENERIC_ERROR_MSG e.describe], [])
         | .ok map_lines =>
           (match appendBoundaryTraces map_lines [] with
            | (traces, none) =>
              ([GEOJSON_EXTRACTED_MSG map_lines.length, GEOJSON_ADDED_MSG],
               traces)
            | (traces, some e) =>
              ([GEOJSON_EXTRACTED_MSG map_lines.length,
                GEOJSON_GENERIC_ERROR_MSG e.describe], traces))) := rfl
  refine ⟨rfl, rfl, rfl, ⟨by decide, ?_, ?_⟩, ?_, ?_, ?_⟩
  · cases e0 <;> decide
  · cases e0 <;> decide
  · intro hx
    rw [hpb, hx]
  · intro hx
    rw [hpb, hx]
    show (match appendBoundaryTraces ls [] with
          | (traces, none) =>
            ([GEOJSON_EXTRACTED_MSG ls.length, GEOJSON_ADDED_MSG], traces)
          | (traces, some e) =>
            ([GEOJSON_EXTRACTED_MSG ls.length,
              GEOJSON_GENERIC_ERROR_MSG e.describe], traces))
        = ((match (appendBoundaryTraces ls []).2 with
            | none => [GEOJSON_EXTRACTED_MSG ls.length, GEOJSON_ADDED_MSG]
            | some e => [GEOJSON_EXTRACTED_MSG ls.length,
                         GEOJSON_GENERIC_ERROR_MSG e.describe]),
           (appendBoundaryTraces ls []).1)
    cases hap : appendBoundaryTraces ls [] with
    | mk traces err => cases err <;> rfl
  · rw [visualize_eq_of_num events file hne hnum]
    rfl

/-- Witness for C5 on the part-way-failing boundary document. -/
theorem claim_C5_witness :
    process_boundary .fileNotFound = ([GEOJSON_MISSING_MSG], []) ∧
    process_boundary (.ok partialFailureDoc)
      = ([GEOJSON_EXTRACTED_MSG 2, GEOJSON_GENERIC_ERROR_MSG "TypeError"],
         [⟨[.num 130, .num 131], [.num 30, .num 31], 2⟩]) ∧
    (visualize_earthquakes_pure_3d [sampleEvent1] .fileNotFound).isOk
      = true := by
  have T := claim_C5_amended_degraded "PermissionError" partialFailureDoc
    PyErr.typeError
    [.arr [.arr [.num 130, .num 30], .arr [.num 131, .num 31]], .num 7]
    [sampleEvent1] .fileNotFound (by simp)
    (fun e he => by simp only [List.mem_singleton] at he; subst he; rfl)
  exact ⟨T.1, T.2.2.2.2.2.1 rfl, T.2.2.2.2.2.2⟩
